import Mathlib

/-!
Shallow embedding of the Camit backend's stream-ingestion, detection and
alert pipeline (backend/app/services and backend/app/api/routes), together
with proofs of the specification's claims about it.

Python dictionaries are modelled as association lists, `datetime.utcnow()`
timestamps as integers passed explicitly, float confidences as rationals,
frames and subscriber channels as natural-number identifiers, and the
external collaborators (pose/flow models, video encoder, SQL store, SMTP)
as explicit boolean/function parameters describing their outcomes.
-/

namespace Camit

/-! ### Association lists modelling Python dicts -/

def lookupA {α β : Type} [DecidableEq α] : List (α × β) → α → Option β
  | [], _ => none
  | p :: rest, k => if k = p.1 then some p.2 else lookupA rest k

def insertA {α β : Type} [DecidableEq α] : List (α × β) → α → β → List (α × β)
  | [], k, v => [(k, v)]
  | p :: rest, k, v => if k = p.1 then (k, v) :: rest else p :: insertA rest k v

def eraseA {α β : Type} [DecidableEq α] : List (α × β) → α → List (α × β)
  | [], _ => []
  | p :: rest, k => if k = p.1 then rest else p :: eraseA rest k

theorem lookupA_insertA_self {α β : Type} [DecidableEq α]
    (l : List (α × β)) (k : α) (v : β) : lookupA (insertA l k v) k = some v := by
  induction l with
  | nil => simp [insertA, lookupA]
  | cons p rest ih =>
    by_cases h : k = p.1
    · simp [insertA, lookupA, h]
    · simp [insertA, lookupA, h, ih]

theorem lookupA_insertA_ne {α β : Type} [DecidableEq α]
    (l : List (α × β)) (k k' : α) (v : β) (h : k' ≠ k) :
    lookupA (insertA l k v) k' = lookupA l k' := by
  induction l with
  | nil => simp [insertA, lookupA, h]
  | cons p rest ih =>
    by_cases hk : k = p.1
    · subst hk
      simp [insertA, lookupA, h]
    · by_cases hk' : k' = p.1
      · simp [insertA, lookupA, hk, hk']
      · simp [insertA, lookupA, hk, hk', ih]

theorem lookupA_eq_none_of_not_mem {α β : Type} [DecidableEq α]
    (l : List (α × β)) (k : α) (h : ¬ k ∈ l.map Prod.fst) : lookupA l k = none := by
  induction l with
  | nil => rfl
  | cons p rest ih =>
    simp only [List.map_cons, List.mem_cons] at h
    push_neg at h
    simp [lookupA, h.1, ih h.2]

theorem lookupA_eraseA_self {α β : Type} [DecidableEq α]
    (l : List (α × β)) (k : α) (h : (l.map Prod.fst).Nodup) :
    lookupA (eraseA l k) k = none := by
  induction l with
  | nil => simp [eraseA, lookupA]
  | cons p rest ih =>
    simp only [List.map_cons, List.nodup_cons] at h
    by_cases hk : k = p.1
    · subst hk
      simp only [eraseA, if_pos rfl]
      exact lookupA_eq_none_of_not_mem rest p.1 h.1
    · simp only [eraseA, if_neg (fun hq => hk hq)]
      simp [lookupA, hk]
      exact ih h.2

/-! ### Data model (backend/app/database/models.py) -/

inductive AlertType
  | fall
  | lying
  | pushing
  | crowd
  | normal
deriving DecidableEq, Repr

/-! ### AlertDeduplicator (backend/app/services/alert_service.py)

`last_alerts : Dict[tuple, datetime]` keyed by `(camera_id, alert_type)`;
`should_send_alert` is the cooldown gate, `cleanup_old_entries` the purge. -/

abbrev DedupKey := Nat × AlertType

def should_send_alert (cooldown : Int) (last_alerts : List (DedupKey × Int))
    (camera_id : Nat) (alert_type : AlertType) (now : Int) :
    Bool × List (DedupKey × Int) :=
  match lookupA last_alerts (camera_id, alert_type) with
  | none => (true, insertA last_alerts (camera_id, alert_type) now)
  | some last_fired =>
      if cooldown ≤ now - last_fired then
        (true, insertA last_alerts (camera_id, alert_type) now)
      else
        (false, last_alerts)

def cleanup_old_entries (cooldown : Int) (last_alerts : List (DedupKey × Int))
    (now : Int) : List (DedupKey × Int) :=
  last_alerts.filter (fun kv => !(decide (kv.2 < now - 2 * cooldown)))

/-- Run a trace of gate calls `(key, time)` from a given dedup state, returning
the accepted calls in trace order. -/
def run_gate (cooldown : Int) :
    List (DedupKey × Int) → List (DedupKey × Int) → List (DedupKey × Int)
  | [], _ => []
  | c :: rest, la =>
      let r := should_send_alert cooldown la c.1.1 c.1.2 c.2
      if r.1 then c :: run_gate cooldown rest r.2 else run_gate cooldown rest r.2

/-- The times at which the gate accepted an alert for key `k`, starting from the
empty dedup state, in trace order. -/
def accepted_times (cooldown : Int) (calls : List (DedupKey × Int)) (k : DedupKey) :
    List Int :=
  (run_gate cooldown calls []).filterMap (fun p => if p.1 = k then some p.2 else none)

theorem should_send_alert_none (cooldown : Int) (la : List (DedupKey × Int))
    (cid : Nat) (ty : AlertType) (now : Int)
    (h : lookupA la (cid, ty) = none) :
    should_send_alert cooldown la cid ty now = (true, insertA la (cid, ty) now) := by
  simp [should_send_alert, h]

theorem should_send_alert_some_true (cooldown : Int) (la : List (DedupKey × Int))
    (cid : Nat) (ty : AlertType) (now last : Int)
    (h : lookupA la (cid, ty) = some last) (hcd : cooldown ≤ now - last) :
    should_send_alert cooldown la cid ty now = (true, insertA la (cid, ty) now) := by
  simp [should_send_alert, h, hcd]

theorem should_send_alert_some_false (cooldown : Int) (la : List (DedupKey × Int))
    (cid : Nat) (ty : AlertType) (now last : Int)
    (h : lookupA la (cid, ty) = some last) (hcd : ¬ cooldown ≤ now - last) :
    should_send_alert cooldown la cid ty now = (false, la) := by
  simp [should_send_alert, h, hcd]

theorem should_send_alert_false_state (cooldown : Int) (la : List (DedupKey × Int))
    (cid : Nat) (ty : AlertType) (now : Int)
    (h : (should_send_alert cooldown la cid ty now).1 = false) :
    (should_send_alert cooldown la cid ty now).2 = la := by
  cases hla : lookupA la (cid, ty) with
  | none => rw [should_send_alert_none cooldown la cid ty now hla] at h; cases h
  | some last =>
    by_cases hcd : cooldown ≤ now - last
    · rw [should_send_alert_some_true cooldown la cid ty now last hla hcd] at h
      cases h
    · rw [should_send_alert_some_false cooldown la cid ty now last hla hcd]

/-- Accepted times for a key form a chain in which each accepted time exceeds
its predecessor by at least the cooldown; the stored timestamp is threaded in
front as the last time accepted so far. -/
theorem gate_chain (cooldown : Int) (k : DedupKey) :
    ∀ (calls la : List (DedupKey × Int)),
      List.Chain' (fun a b => a + cooldown ≤ b)
        ((lookupA la k).toList ++
          (run_gate cooldown calls la).filterMap
            (fun p => if p.1 = k then some p.2 else none)) := by
  intro calls
  induction calls with
  | nil =>
    intro la
    cases lookupA la k <;> simp [run_gate]
  | cons c rest ih =>
    intro la
    obtain ⟨⟨cid, ty⟩, t⟩ := c
    cases hla : lookupA la (cid, ty) with
    | none =>
      rw [show run_gate cooldown (((cid, ty), t) :: rest) la
            = ((cid, ty), t) :: run_gate cooldown rest (insertA la (cid, ty) t) by
          simp [run_gate, should_send_alert_none cooldown la cid ty t hla]]
      by_cases hk : ((cid, ty) : DedupKey) = k
      · subst hk
        have hpre : lookupA la ((cid, ty) : DedupKey) = none := hla
        have := ih (insertA la (cid, ty) t)
        rw [lookupA_insertA_self] at this
        simpa [hpre] using this
      · have := ih (insertA la (cid, ty) t)
        rw [lookupA_insertA_ne la (cid, ty) k t (fun h => hk h.symm)] at this
        simpa [hk] using this
    | some last =>
      by_cases hcd : cooldown ≤ t - last
      · rw [show run_gate cooldown (((cid, ty), t) :: rest) la
              = ((cid, ty), t) :: run_gate cooldown rest (insertA la (cid, ty) t) by
            simp [run_gate, should_send_alert_some_true cooldown la cid ty t last hla hcd]]
        by_cases hk : ((cid, ty) : DedupKey) = k
        · subst hk
          have hrest := ih (insertA la (cid, ty) t)
          rw [lookupA_insertA_self] at hrest
          rw [hla]
          have hfm : List.filterMap
              (fun p : DedupKey × Int => if p.1 = ((cid, ty) : DedupKey) then some p.2 else none)
              ((((cid, ty) : DedupKey), t) :: run_gate cooldown rest (insertA la (cid, ty) t))
              = t :: List.filterMap
                  (fun p : DedupKey × Int =>
                    if p.1 = ((cid, ty) : DedupKey) then some p.2 else none)
                  (run_gate cooldown rest (insertA la (cid, ty) t)) := by
            simp
          rw [hfm]
          simp only [Option.toList_some, List.singleton_append] at hrest ⊢
          exact List.chain'_cons.mpr ⟨by omega, hrest⟩
        · have := ih (insertA la (cid, ty) t)
          rw [lookupA_insertA_ne la (cid, ty) k t (fun h => hk h.symm)] at this
          simpa [hk] using this
      · rw [show run_gate cooldown (((cid, ty), t) :: rest) la
              = run_gate cooldown rest la by
            simp [run_gate, should_send_alert_some_false cooldown la cid ty t last hla hcd]]
        exact ih la

theorem chain_to_pairwise (c : Int) (hc : 0 ≤ c) :
    ∀ l : List Int, List.Chain' (fun a b => a + c ≤ b) l →
      List.Pairwise (fun a b => a + c ≤ b) l
  | [], _ => List.Pairwise.nil
  | [_], _ => by simp
  | a :: b :: t, h => by
    rw [List.chain'_cons] at h
    have hp := chain_to_pairwise c hc (b :: t) h.2
    refine List.Pairwise.cons ?_ hp
    intro x hx
    rcases List.mem_cons.mp hx with rfl | hxt
    · exact h.1
    · have hbx := (List.pairwise_cons.mp hp).1 x hxt
      omega

theorem pairwise_spacing (c : Int) (hc : 0 ≤ c) (l : List Int)
    (hl : List.Pairwise (fun a b => a + c ≤ b) l) :
    ∀ t1 ∈ l, ∀ t2 ∈ l, t1 < t2 → c ≤ t2 - t1 := by
  induction hl with
  | nil => intro t1 h1; cases h1
  | cons hhead _ ih =>
    intro t1 h1 t2 h2 hlt
    rcases List.mem_cons.mp h1 with rfl | h1t
    · rcases List.mem_cons.mp h2 with rfl | h2t
      · omega
      · have := hhead t2 h2t; omega
    · rcases List.mem_cons.mp h2 with rfl | h2t
      · have := hhead t1 h1t; omega
      · exact ih t1 h1t t2 h2t hlt

/-- C1: for every `(source_id, condition)` key, the first call to the cooldown
gate records the current time and returns true; a rejected call does not update
the stored timestamp; and any two timestamps `t1 < t2` accepted for the same
key over any call trace satisfy `t2 - t1 ≥ cooldown_window`. -/
theorem cooldown_gate_ok (cooldown : Int) (hc : 0 ≤ cooldown) :
    (∀ (la : List (DedupKey × Int)) (cid : Nat) (ty : AlertType) (now : Int),
        lookupA la (cid, ty) = none →
        should_send_alert cooldown la cid ty now = (true, insertA la (cid, ty) now)) ∧
    (∀ (la : List (DedupKey × Int)) (cid : Nat) (ty : AlertType) (now : Int),
        (should_send_alert cooldown la cid ty now).1 = false →
        (should_send_alert cooldown la cid ty now).2 = la) ∧
    (∀ (calls : List (DedupKey × Int)) (k : DedupKey) (t1 t2 : Int),
        t1 ∈ accepted_times cooldown calls k → t2 ∈ accepted_times cooldown calls k →
        t1 < t2 → cooldown ≤ t2 - t1) := by
  refine ⟨should_send_alert_none cooldown, should_send_alert_false_state cooldown, ?_⟩
  intro calls k t1 t2 h1 h2 hlt
  have hchain := gate_chain cooldown k calls []
  have hnil : lookupA ([] : List (DedupKey × Int)) k = none := rfl
  rw [hnil] at hchain
  simp only [Option.toList, List.nil_append] at hchain
  have hpw := chain_to_pairwise cooldown hc _ hchain
  exact pairwise_spacing cooldown hc _ hpw t1 h1 t2 h2 hlt

/-- Witness for C1: cooldown 60, calls for key (1, fall) at times 0, 30, 61;
t=0 and t=61 are accepted (t=30 suppressed) and 61 - 0 ≥ 60. -/
theorem cooldown_gate_ok_witness :
    (0 : Int) ≤ 60 ∧
    (0 : Int) ∈ accepted_times 60 [((1, AlertType.fall), 0), ((1, AlertType.fall), 30),
      ((1, AlertType.fall), 61)] (1, AlertType.fall) ∧
    (61 : Int) ∈ accepted_times 60 [((1, AlertType.fall), 0), ((1, AlertType.fall), 30),
      ((1, AlertType.fall), 61)] (1, AlertType.fall) ∧
    (60 : Int) ≤ 61 - 0 :=
  ⟨by decide, by decide, by decide,
    (cooldown_gate_ok 60 (by decide)).2.2
      [((1, AlertType.fall), 0), ((1, AlertType.fall), 30), ((1, AlertType.fall), 61)]
      (1, AlertType.fall) 0 61 (by decide) (by decide) (by decide)⟩

/-! ### DetectionService lying debounce (backend/app/services/detection_service.py)

`lying_tracker : Dict[int, datetime]` keyed by camera; the lying branch of
`process_frame` starts/continues the window on a qualifying observation and
deletes the entry otherwise. The external pose model's output is passed in as
`(is_lying, lying_conf)`. -/

def process_lying (sustain : Int) (threshold : ℚ) (lying_tracker : List (Nat × Int))
    (camera_id : Nat) (is_lying : Bool) (lying_conf : ℚ) (now : Int) :
    List (Nat × Int) × Bool :=
  if is_lying && decide (threshold ≤ lying_conf) then
    match lookupA lying_tracker camera_id with
    | none => (insertA lying_tracker camera_id now, decide (sustain ≤ now - now))
    | some window_start => (lying_tracker, decide (sustain ≤ now - window_start))
  else
    (eraseA lying_tracker camera_id, false)

/-- Process a sequence of per-frame lying observations `(is_lying, conf, time)`
for one camera, returning the per-frame `detected` flags. -/
def lying_run (sustain : Int) (threshold : ℚ) (camera_id : Nat) :
    List (Bool × ℚ × Int) → List (Nat × Int) → List Bool
  | [], _ => []
  | obs :: rest, st =>
      let r := process_lying sustain threshold st camera_id obs.1 obs.2.1 obs.2.2
      r.2 :: lying_run sustain threshold camera_id rest r.1

theorem lying_run_qualifying (sustain : Int) (threshold : ℚ) (cid : Nat) (t0 : Int) :
    ∀ (obs : List (ℚ × Int)) (st : List (Nat × Int)),
      lookupA st cid = some t0 → (∀ p ∈ obs, threshold ≤ p.1) →
      lying_run sustain threshold cid (obs.map (fun p => (true, p.1, p.2))) st
        = obs.map (fun p => decide (sustain ≤ p.2 - t0)) := by
  intro obs
  induction obs with
  | nil => intro st _ _; rfl
  | cons p rest ih =>
    intro st hst hq
    have hp : threshold ≤ p.1 := hq p (List.mem_cons_self p rest)
    have hstep : process_lying sustain threshold st cid true p.1 p.2
        = (st, decide (sustain ≤ p.2 - t0)) := by
      simp [process_lying, decide_eq_true hp, hst]
    simp only [List.map_cons, lying_run, hstep]
    exact congrArg (fun l => decide (sustain ≤ p.2 - t0) :: l)
      (ih st hst (fun q hqmem => hq q (List.mem_cons_of_mem p hqmem)))

/-- C2: a run of qualifying lying observations starting at time `t0` reports
`detected` exactly when the time since `t0` has reached the sustain threshold
(so nothing is detected before the threshold is reached, and detection starts
at the first frame reaching it), and a non-qualifying observation clears the
per-source window so accumulation restarts. -/
theorem lying_debounce_ok (sustain : Int) (threshold : ℚ) (cid : Nat) :
    (∀ (st : List (Nat × Int)) (c0 : ℚ) (t0 : Int) (obs : List (ℚ × Int)),
        lookupA st cid = none → threshold ≤ c0 → (∀ p ∈ obs, threshold ≤ p.1) →
        lying_run sustain threshold cid
            (((c0, t0) :: obs).map (fun p => (true, p.1, p.2))) st
          = ((c0, t0) :: obs).map (fun p => decide (sustain ≤ p.2 - t0))) ∧
    (∀ (st : List (Nat × Int)) (is_lying : Bool) (conf : ℚ) (now : Int),
        is_lying = false ∨ conf < threshold →
        process_lying sustain threshold st cid is_lying conf now = (eraseA st cid, false)) ∧
    (∀ st : List (Nat × Int), (st.map Prod.fst).Nodup →
        lookupA (eraseA st cid) cid = none) := by
  refine ⟨?_, ?_, fun st h => lookupA_eraseA_self st cid h⟩
  · intro st c0 t0 obs hst hc0 hq
    have hstep : process_lying sustain threshold st cid true c0 t0
        = (insertA st cid t0, decide (sustain ≤ t0 - t0)) := by
      simp [process_lying, decide_eq_true hc0, hst]
    simp only [List.map_cons, lying_run, hstep]
    exact congrArg (fun l => decide (sustain ≤ t0 - t0) :: l)
      (lying_run_qualifying sustain threshold cid t0 obs (insertA st cid t0)
        (lookupA_insertA_self st cid t0) hq)
  · intro st is_lying conf now h
    rcases h with h | h
    · subst h
      simp [process_lying]
    · have hd : decide (threshold ≤ conf) = false := decide_eq_false (not_le.mpr h)
      simp [process_lying, hd]

/-- Witness for C2: sustain 5s, qualifying observations at t = 0..5 with
confidence 1 against threshold 4/5 give detected first (and only) at t = 5,
matching the spec scenario. -/
theorem lying_debounce_ok_witness :
    lookupA ([] : List (Nat × Int)) 7 = none ∧ (4/5 : ℚ) ≤ 1 ∧
    lying_run 5 (4/5) 7
        ((((1 : ℚ), (0 : Int)) :: [((1 : ℚ), (1 : Int)), (1, 2), (1, 3), (1, 4), (1, 5)]).map
          (fun p => (true, p.1, p.2))) []
      = (((1 : ℚ), (0 : Int)) :: [((1 : ℚ), (1 : Int)), (1, 2), (1, 3), (1, 4), (1, 5)]).map
          (fun p => decide (5 ≤ p.2 - 0)) :=
  ⟨rfl, by norm_num,
    (lying_debounce_ok 5 (4/5) 7).1 [] 1 0 [((1 : ℚ), (1 : Int)), (1, 2), (1, 3), (1, 4), (1, 5)]
      rfl (by norm_num) (by intro p hp; fin_cases hp <;> norm_num)⟩

/-! ### PushingDetector (backend/app/services/detection_service.py)

`prev_frame` is a single optional field of the one `PushingDetector` instance
shared by `DetectionService` across all cameras. The optical-flow statistics
computed by cv2 from the previous and current frames are abstracted as the
external function `flow`; frames are identifiers. -/

structure MotionObs where
  mean_motion : ℚ
  max_motion : ℚ
deriving DecidableEq, Repr

def detect_pushing (flow : Nat → Nat → MotionObs) (prev_frame : Option Nat) (frame : Nat) :
    (Bool × ℚ) × Option Nat :=
  match prev_frame with
  | some prev =>
      let obs := flow prev frame
      let is_pushing := decide (15 < obs.max_motion) && decide (3 < obs.mean_motion)
      let confidence := if is_pushing then min (obs.max_motion / 30) 1 else 0
      ((is_pushing, confidence), some frame)
  | none => ((false, 0), some frame)

/-- The pushing entry of `DetectionService.process_frame`: thresholds the raw
detector output (`detected = is_pushing and conf >= PUSHING_CONFIDENCE_THRESHOLD`). -/
def pushing_report (threshold : ℚ) (flow : Nat → Nat → MotionObs)
    (prev_frame : Option Nat) (frame : Nat) : (Bool × ℚ) × Option Nat :=
  let r := detect_pushing flow prev_frame frame
  ((r.1.1 && decide (threshold ≤ r.1.2), r.1.2), r.2)

/-- Process frames `(camera_id, frame)` in arrival order through the single
shared pushing detector, returning `(camera_id, detected, confidence)` per frame. -/
def pushing_run (threshold : ℚ) (flow : Nat → Nat → MotionObs) :
    List (Nat × Nat) → Option Nat → List (Nat × Bool × ℚ)
  | [], _ => []
  | cf :: rest, prev =>
      let r := pushing_report threshold flow prev cf.2
      (cf.1, r.1.1, r.1.2) :: pushing_run threshold flow rest r.2

/-- C5 counterexample: with the flow model reporting strong motion, a trace in
which camera 1's frame is processed first makes camera 2's very first frame
(no predecessor from camera 2) report `detected = true` with nonzero
confidence, because `prev_frame` is shared across cameras — refuting the claim
that a source's first frame never qualifies. -/
theorem pushing_first_frame_counterexample :
    (∀ p ∈ [((1 : Nat), (10 : Nat))], p.1 ≠ 2) ∧
    ¬ ((pushing_run (13/20) (fun _ _ => MotionObs.mk 4 20) [(1, 10), (2, 11)] none).get? 1
        = some (2, false, 0)) ∧
    (pushing_run (13/20) (fun _ _ => MotionObs.mk 4 20) [(1, 10), (2, 11)] none).get? 1
      = some (2, true, 2/3) := by
  have hrun : pushing_run (13/20) (fun _ _ => MotionObs.mk 4 20) [(1, 10), (2, 11)] none
      = [(1, false, 0), (2, true, 2/3)] := by
    norm_num [pushing_run, pushing_report, detect_pushing, min_def]
  refine ⟨by decide, by rw [hrun]; simp, by rw [hrun]; rfl⟩

/-- C5 amended: the pushing report is `detected = false` with confidence 0 on
the first frame the shared detector ever evaluates (`prev_frame` absent, i.e.
no frame from any source has been processed yet); per-source firstness alone
gives no such guarantee since `prev_frame` is shared across sources. -/
theorem pushing_detector_first_frame (threshold : ℚ) (flow : Nat → Nat → MotionObs)
    (frame : Nat) (cid : Nat) (rest : List (Nat × Nat)) :
    detect_pushing flow none frame = ((false, 0), some frame) ∧
    pushing_report threshold flow none frame = ((false, 0), some frame) ∧
    pushing_run threshold flow ((cid, frame) :: rest) none
      = (cid, false, 0) :: pushing_run threshold flow rest (some frame) := by
  refine ⟨rfl, ?_, ?_⟩
  · simp [pushing_report, detect_pushing]
  · simp [pushing_run, pushing_report, detect_pushing]

/-! ### CameraStreamProcess frame queue (backend/app/services/camera_manager.py)

`Queue(maxsize=10)` with drop-oldest insertion: `run` pops the oldest entry
with `get_nowait` when the queue is full before `put_nowait`. The queue is a
FIFO list whose head is the oldest entry; frames are sequence numbers. -/

def queue_put_drop_oldest (maxsize : Nat) (q : List Nat) (frame : Nat) : List Nat :=
  if maxsize ≤ q.length then q.tail ++ [frame] else q ++ [frame]

theorem queue_put_length (maxsize : Nat) (hK : 0 < maxsize) (q : List Nat) (f : Nat)
    (h : q.length ≤ maxsize) : (queue_put_drop_oldest maxsize q f).length ≤ maxsize := by
  unfold queue_put_drop_oldest
  by_cases hfull : maxsize ≤ q.length
  · rw [if_pos hfull]
    cases q with
    | nil => simp at hfull; omega
    | cons a t => simp at h ⊢; omega
  · rw [if_neg hfull]
    simp
    omega

/-- C3: for every sequence of inserts into a buffer of capacity `K > 0`, the
buffer holds at most `K` entries after each insert; inserting into a full
sorted buffer evicts exactly the head, which is the lowest-sequence entry
present; and capacity 3 with inserts 1,2,3,4 leaves exactly [2,3,4]. -/
theorem source_buffer_ok (K : Nat) (hK : 0 < K) :
    (∀ fs : List Nat, (fs.foldl (queue_put_drop_oldest K) []).length ≤ K) ∧
    (∀ (e : Nat) (rest : List Nat) (f : Nat),
        (e :: rest).Pairwise (· ≤ ·) → K ≤ (e :: rest).length →
        queue_put_drop_oldest K (e :: rest) f = rest ++ [f] ∧ ∀ x ∈ e :: rest, e ≤ x) ∧
    (([1, 2, 3, 4] : List Nat).foldl (queue_put_drop_oldest 3) [] = [2, 3, 4]) := by
  refine ⟨?_, ?_, by decide⟩
  · have hstep : ∀ (fs : List Nat) (q : List Nat), q.length ≤ K →
        (fs.foldl (queue_put_drop_oldest K) q).length ≤ K := by
      intro fs
      induction fs with
      | nil => intro q h; exact h
      | cons f rest ih =>
        intro q h
        exact ih (queue_put_drop_oldest K q f) (queue_put_length K hK q f h)
    intro fs
    exact hstep fs [] (by simp)
  · intro e rest f hsorted hfull
    refine ⟨?_, ?_⟩
    · unfold queue_put_drop_oldest
      rw [if_pos hfull]
      rfl
    · intro x hx
      rcases List.mem_cons.mp hx with rfl | hxt
      · exact le_refl x
      · exact (List.pairwise_cons.mp hsorted).1 x hxt

/-- Witness for C3: capacity 3, inserts 1..5 leave at most 3 entries. -/
theorem source_buffer_ok_witness :
    (([1, 2, 3, 4, 5] : List Nat).foldl (queue_put_drop_oldest 3) []).length ≤ 3 :=
  (source_buffer_ok 3 (by decide)).1 [1, 2, 3, 4, 5]

/-! ### CameraManager.get_frame (backend/app/services/camera_manager.py)

`get_frame` does a non-blocking `get_nowait` on the camera's FIFO queue
(head = oldest buffered frame), returning `None` on an unknown camera or an
empty queue. -/

structure FrameData where
  frame_number : Nat
deriving DecidableEq, Repr

def get_frame (frame_queues : List (Nat × List FrameData)) (camera_id : Nat) :
    Option FrameData × List (Nat × List FrameData) :=
  match lookupA frame_queues camera_id with
  | none => (none, frame_queues)
  | some [] => (none, frame_queues)
  | some (f :: rest) => (some f, insertA frame_queues camera_id rest)

/-- C4 evaluation: with two frames buffered for camera 1 (sequence numbers 0
and 1), `get_frame` returns the frame with sequence number 0 — the oldest —
although a newer frame (sequence number 1) is buffered, contradicting the
claim (and the function's own docstring) that the newest buffered frame is
returned. The non-blocking `None` cases hold. -/
theorem get_frame_returns_oldest_not_newest :
    (get_frame [(1, [FrameData.mk 0, FrameData.mk 1])] 1).1 = some (FrameData.mk 0) ∧
    FrameData.mk 1 ∈ [FrameData.mk 0, FrameData.mk 1] ∧
    (FrameData.mk 0).frame_number < (FrameData.mk 1).frame_number ∧
    (get_frame [(1, [FrameData.mk 0, FrameData.mk 1])] 5).1 = none ∧
    (get_frame [(1, ([] : List FrameData))] 1).1 = none := by
  refine ⟨rfl, by decide, by decide, rfl, rfl⟩

/-! ### ConnectionManager.broadcast (backend/app/api/routes/websocket.py)

Subscribers are channel identifiers; `fails c = true` models `send_json`
raising for subscriber `c`. `broadcast` iterates `active_connections`,
collects failing subscribers, then removes each of them (guarded first-
occurrence removal, as in the Python list `remove`). It returns the list of
subscribers whose send succeeded (those that received the event, in order)
and the surviving registry. -/

def broadcast_send_loop (fails : Nat → Bool) :
    List Nat → List Nat → List Nat → List Nat × List Nat
  | [], delivered, disconnected => (delivered, disconnected)
  | c :: rest, delivered, disconnected =>
      if fails c then broadcast_send_loop fails rest delivered (disconnected ++ [c])
      else broadcast_send_loop fails rest (delivered ++ [c]) disconnected

def remove_disconnected : List Nat → List Nat → List Nat
  | [], active => active
  | c :: rest, active =>
      if c ∈ active then remove_disconnected rest (active.erase c)
      else remove_disconnected rest active

def broadcast (fails : Nat → Bool) (active_connections : List Nat) :
    List Nat × List Nat :=
  let r := broadcast_send_loop fails active_connections [] []
  (r.1, remove_disconnected r.2 active_connections)

theorem broadcast_send_loop_eq (fails : Nat → Bool) :
    ∀ (l d x : List Nat),
      broadcast_send_loop fails l d x
        = (d ++ l.filter (fun c => !(fails c)), x ++ l.filter fails) := by
  intro l
  induction l with
  | nil => intro d x; simp [broadcast_send_loop]
  | cons c rest ih =>
    intro d x
    by_cases hc : fails c
    · simp [broadcast_send_loop, hc, ih, List.filter_cons]
    · simp only [Bool.not_eq_true] at hc
      simp [broadcast_send_loop, hc, ih, List.filter_cons]

theorem remove_disconnected_eq :
    ∀ (d act : List Nat), act.Nodup →
      remove_disconnected d act = act.filter (fun x => !(decide (x ∈ d))) := by
  intro d
  induction d with
  | nil => intro act _; simp [remove_disconnected]
  | cons c rest ih =>
    intro act hact
    by_cases hc : c ∈ act
    · rw [show remove_disconnected (c :: rest) act
          = remove_disconnected rest (act.erase c) by simp [remove_disconnected, hc]]
      rw [ih (act.erase c) (hact.erase c)]
      rw [List.Nodup.erase_eq_filter hact]
      rw [List.filter_filter]
      refine List.filter_congr ?_
      intro x _
      by_cases hxc : x = c
      · subst hxc
        simp
      · simp [hxc, fun h => hxc h]
    · rw [show remove_disconnected (c :: rest) act
          = remove_disconnected rest act by simp [remove_disconnected, hc]]
      rw [ih act hact]
      refine List.filter_congr ?_
      intro x hx
      have hxc : x ≠ c := fun h => hc (h ▸ hx)
      simp [hxc]

theorem broadcast_eq (fails : Nat → Bool) (conns : List Nat) (h : conns.Nodup) :
    broadcast fails conns
      = (conns.filter (fun c => !(fails c)), conns.filter (fun c => !(fails c))) := by
  unfold broadcast
  rw [broadcast_send_loop_eq]
  simp only [List.nil_append]
  rw [remove_disconnected_eq (conns.filter fails) conns h]
  refine congrArg (fun l => (conns.filter (fun c => !(fails c)), l)) ?_
  refine List.filter_congr ?_
  intro x hx
  by_cases hf : fails x
  · simp [List.mem_filter, hx, hf]
  · simp [List.mem_filter, hf]

/-- C9: over a duplicate-free registry, a broadcast delivers the event to
exactly the subscribers whose send succeeds; the subscribers whose send fails
— and only those — are removed from the registry; and a subsequent broadcast
delivers only to the survivors. -/
theorem broadcast_prunes_failed (fails : Nat → Bool) (conns : List Nat)
    (h : conns.Nodup) :
    (broadcast fails conns).1 = conns.filter (fun c => !(fails c)) ∧
    (broadcast fails conns).2 = conns.filter (fun c => !(fails c)) ∧
    broadcast fails ((broadcast fails conns).2)
      = ((broadcast fails conns).2, (broadcast fails conns).2) := by
  have h1 := broadcast_eq fails conns h
  refine ⟨by rw [h1], by rw [h1], ?_⟩
  have h2 : ((broadcast fails conns).2).Nodup := by
    rw [h1]
    exact h.filter _
  rw [broadcast_eq fails _ h2, h1]
  simp only []
  refine congrArg (fun l => (l, l)) ?_
  rw [List.filter_filter]
  refine List.filter_congr ?_
  intro x _
  simp

/-- Witness for C9: registry [1,2,3] where subscriber 2's send fails —
subscribers 1 and 3 receive the event, 2 is pruned, and the next broadcast
goes exactly to [1,3]. -/
theorem broadcast_prunes_failed_witness :
    ([1, 2, 3] : List Nat).Nodup ∧
    ((broadcast (fun c => c == 2) [1, 2, 3]).1
        = [1, 2, 3].filter (fun c => !(c == 2)) ∧
      (broadcast (fun c => c == 2) [1, 2, 3]).2
        = [1, 2, 3].filter (fun c => !(c == 2)) ∧
      broadcast (fun c => c == 2) ((broadcast (fun c => c == 2) [1, 2, 3]).2)
        = ((broadcast (fun c => c == 2) [1, 2, 3]).2,
            (broadcast (fun c => c == 2) [1, 2, 3]).2)) ∧
    ([1, 2, 3] : List Nat).filter (fun c => !(c == 2)) = [1, 3] :=
  ⟨by decide, broadcast_prunes_failed (fun c => c == 2) [1, 2, 3] (by decide), by decide⟩

/-! ### AlertService.create_alert (backend/app/services/alert_service.py)

The SQL store is a `Db` value (camera table and persisted alerts), SMTP
delivery is logged in `Db.emails`. External outcomes are an `Env`:
`encode_ok` is the video writer succeeding inside `generate_clip`,
`commit_ok` is the store accepting the insert (its failure raises, modelled
as `Except.error`), `email_ok` is `send_alert_email` returning true (that
function catches its own exceptions). File paths are opaque identifiers.
The whole `try` body of `create_alert` is `create_alert_try`; `create_alert`
runs the cooldown check first and wraps the body in the exception handler
that rolls the store back and returns no alert. -/

structure Camera where
  name : Nat
  crowd_threshold : Nat
deriving DecidableEq, Repr

structure Alert where
  camera_id : Nat
  alert_type : AlertType
  confidence : ℚ
  image_path : Nat
  video_path : Option Nat
  email_sent : Bool
deriving DecidableEq, Repr

structure Db where
  cameras : List (Nat × Camera)
  alerts : List Alert
  emails : List (Nat × AlertType)
deriving DecidableEq, Repr

structure AlertServiceState where
  last_alerts : List (DedupKey × Int)
  frame_buffers : List (Nat × List Nat)
deriving DecidableEq, Repr

structure Env where
  encode_ok : Bool
  commit_ok : Bool
  email_ok : Bool
deriving DecidableEq, Repr

/-- `VideoClipGenerator.generate_clip`: false when no frames are buffered for
the camera, otherwise the video writer's outcome. -/
def generate_clip (encode_ok : Bool) (frame_buffers : List (Nat × List Nat))
    (camera_id : Nat) : Bool :=
  match lookupA frame_buffers camera_id with
  | none => false
  | some [] => false
  | some (_ :: _) => encode_ok

/-- The `try` body of `AlertService.create_alert`, entered after the cooldown
check accepted; a store failure raises. -/
def create_alert_try (env : Env) (db : Db) (st : AlertServiceState)
    (camera_id : Nat) (alert_type : AlertType) (confidence : ℚ)
    (cooldown now : Int) : Except Unit (Option Alert × Db × AlertServiceState) :=
  match lookupA db.cameras camera_id with
  | none => Except.ok (none, db, st)
  | some _camera =>
      let image_path := camera_id
      let video_generated := generate_clip env.encode_ok st.frame_buffers camera_id
      let video_path := if video_generated then some camera_id else none
      if env.commit_ok then
        let db_alert : Alert :=
          ⟨camera_id, alert_type, confidence, image_path, video_path, false⟩
        let db2 : Db := { db with alerts := db.alerts ++ [db_alert] }
        let email_sent := env.email_ok
        if email_sent then
          let db_alert2 : Alert := { db_alert with email_sent := true }
          let db3 : Db := { db2 with
            alerts := db.alerts ++ [db_alert2],
            emails := db2.emails ++ [(camera_id, alert_type)] }
          let st2 : AlertServiceState :=
            { st with last_alerts := cleanup_old_entries cooldown st.last_alerts now }
          Except.ok (some db_alert2, db3, st2)
        else
          let st2 : AlertServiceState :=
            { st with last_alerts := cleanup_old_entries cooldown st.last_alerts now }
          Except.ok (some db_alert, db2, st2)
      else
        Except.error ()

/-- `AlertService.create_alert`: cooldown gate, then the `try` body; on an
exception the store is rolled back (uncommitted work discarded) and no alert
is returned. The deduplicator update made by the gate is never rolled back. -/
def create_alert (cooldown : Int) (env : Env) (db : Db) (st : AlertServiceState)
    (camera_id : Nat) (alert_type : AlertType) (confidence : ℚ) (now : Int) :
    Option Alert × Db × AlertServiceState :=
  let r := should_send_alert cooldown st.last_alerts camera_id alert_type now
  let st2 : AlertServiceState := { st with last_alerts := r.2 }
  if r.1 then
    match create_alert_try env db st2 camera_id alert_type confidence cooldown now with
    | Except.ok result => result
    | Except.error _ => (none, db, st2)
  else
    (none, db, st2)

/-- C6: when the cooldown gate rejects the key, `create_alert` is a complete
no-op — no alert is returned, the store (alerts, cameras, notification log)
is untouched, and the service state (deduplicator, frame buffers) is
unchanged. -/
theorem create_alert_suppressed_noop (cooldown : Int) (env : Env) (db : Db)
    (st : AlertServiceState) (camera_id : Nat) (alert_type : AlertType)
    (confidence : ℚ) (now : Int)
    (h : (should_send_alert cooldown st.last_alerts camera_id alert_type now).1 = false) :
    create_alert cooldown env db st camera_id alert_type confidence now = (none, db, st) := by
  have h2 := should_send_alert_false_state cooldown st.last_alerts camera_id alert_type now h
  unfold create_alert
  rw [if_neg (by rw [h]; exact Bool.false_ne_true)]
  rw [h2]

/-- Witness for C6: cooldown 60 with an entry 30 seconds old — the call is
suppressed and changes nothing. -/
theorem create_alert_suppressed_noop_witness :
    (should_send_alert 60 [((3, AlertType.crowd), 0)] 3 AlertType.crowd 30).1 = false ∧
    create_alert 60 ⟨true, true, true⟩ ⟨[], [], []⟩ ⟨[((3, AlertType.crowd), 0)], []⟩
        3 AlertType.crowd (9/10) 30
      = (none, ⟨[], [], []⟩, ⟨[((3, AlertType.crowd), 0)], []⟩) :=
  ⟨by decide,
    create_alert_suppressed_noop 60 ⟨true, true, true⟩ ⟨[], [], []⟩
      ⟨[((3, AlertType.crowd), 0)], []⟩ 3 AlertType.crowd (9/10) 30 (by decide)⟩

/-- C7: on an accepted detection with the camera known and the store
accepting the write, a clip-generation failure does not abort the alert —
an alert with no video path is still returned and persisted. -/
theorem create_alert_clip_failure_still_persists (cooldown : Int) (env : Env)
    (db : Db) (st : AlertServiceState) (camera_id : Nat) (alert_type : AlertType)
    (confidence : ℚ) (now : Int)
    (haccept : (should_send_alert cooldown st.last_alerts camera_id alert_type now).1 = true)
    (hcam : (lookupA db.cameras camera_id).isSome = true)
    (hclip : generate_clip env.encode_ok st.frame_buffers camera_id = false)
    (hcommit : env.commit_ok = true) :
    ∃ a : Alert,
      (create_alert cooldown env db st camera_id alert_type confidence now).1 = some a ∧
      a.video_path = none ∧
      a ∈ (create_alert cooldown env db st camera_id alert_type confidence now).2.1.alerts := by
  rcases Option.isSome_iff_exists.mp hcam with ⟨cam, hcamEq⟩
  unfold create_alert
  rw [if_pos haccept]
  unfold create_alert_try
  rw [hcamEq, hclip, hcommit]
  cases hmail : env.email_ok with
  | true =>
    refine ⟨⟨camera_id, alert_type, confidence, camera_id, none, true⟩, ?_, rfl, ?_⟩
    · simp
    · simp
  | false =>
    refine ⟨⟨camera_id, alert_type, confidence, camera_id, none, false⟩, ?_, rfl, ?_⟩
    · simp
    · simp

/-- Witness for C7: empty frame buffer (so clip generation fails), camera 2
present, store accepting — the alert is created with `video_path = none`. -/
theorem create_alert_clip_failure_still_persists_witness :
    (should_send_alert 60 [] 2 AlertType.fall 100).1 = true ∧
    generate_clip true [] 2 = false ∧
    (∃ a : Alert,
      (create_alert 60 ⟨true, true, false⟩ ⟨[(2, ⟨2, 10⟩)], [], []⟩ ⟨[], []⟩
          2 AlertType.fall (9/10) 100).1 = some a ∧
      a.video_path = none ∧
      a ∈ (create_alert 60 ⟨true, true, false⟩ ⟨[(2, ⟨2, 10⟩)], [], []⟩ ⟨[], []⟩
          2 AlertType.fall (9/10) 100).2.1.alerts) :=
  ⟨by decide, by decide,
    create_alert_clip_failure_still_persists 60 ⟨true, true, false⟩
      ⟨[(2, ⟨2, 10⟩)], [], []⟩ ⟨[], []⟩ 2 AlertType.fall (9/10) 100
      (by decide) (by decide) (by decide) (by decide)⟩

/-- C8: a store failure inside `create_alert` raises inside the `try` body,
is caught — the call returns normally with no alert and the store unchanged —
and a subsequent detection (here on a different key with a working store) is
still processed and persists its alert. -/
theorem create_alert_persist_failure_isolated (cooldown : Int) (env1 env2 : Env)
    (db : Db) (st : AlertServiceState) (cid1 cid2 : Nat) (ty1 ty2 : AlertType)
    (conf1 conf2 : ℚ) (now1 now2 : Int)
    (hfail : env1.commit_ok = false)
    (hcam1 : (lookupA db.cameras cid1).isSome = true)
    (hacc1 : (should_send_alert cooldown st.last_alerts cid1 ty1 now1).1 = true)
    (hkey : ((cid2, ty2) : DedupKey) ≠ (cid1, ty1))
    (hacc2 : lookupA st.last_alerts ((cid2, ty2) : DedupKey) = none)
    (hcam2 : (lookupA db.cameras cid2).isSome = true)
    (hok2 : env2.commit_ok = true) :
    ∃ st1 : AlertServiceState,
      create_alert cooldown env1 db st cid1 ty1 conf1 now1 = (none, db, st1) ∧
      create_alert_try env1 db st1 cid1 ty1 conf1 cooldown now1 = Except.error () ∧
      ∃ a : Alert,
        (create_alert cooldown env2 db st1 cid2 ty2 conf2 now2).1 = some a ∧
        a ∈ (create_alert cooldown env2 db st1 cid2 ty2 conf2 now2).2.1.alerts := by
  rcases Option.isSome_iff_exists.mp hcam1 with ⟨cam1, hcam1Eq⟩
  rcases Option.isSome_iff_exists.mp hcam2 with ⟨cam2, hcam2Eq⟩
  set st1 : AlertServiceState :=
    { st with last_alerts := (should_send_alert cooldown st.last_alerts cid1 ty1 now1).2 }
  have htry1 : create_alert_try env1 db st1 cid1 ty1 conf1 cooldown now1
      = Except.error () := by
    unfold create_alert_try
    rw [hcam1Eq, hfail]
    simp
  have hcall1 : create_alert cooldown env1 db st cid1 ty1 conf1 now1 = (none, db, st1) := by
    unfold create_alert
    rw [if_pos hacc1, htry1]
  refine ⟨st1, hcall1, htry1, ?_⟩
  have hacc2' : lookupA st1.last_alerts ((cid2, ty2) : DedupKey) = none := by
    show lookupA (should_send_alert cooldown st.last_alerts cid1 ty1 now1).2 (cid2, ty2) = none
    cases hla : lookupA st.last_alerts ((cid1, ty1) : DedupKey) with
    | none =>
      rw [should_send_alert_none cooldown st.last_alerts cid1 ty1 now1 hla]
      rw [lookupA_insertA_ne st.last_alerts (cid1, ty1) (cid2, ty2) now1 hkey]
      exact hacc2
    | some last =>
      by_cases hcd : cooldown ≤ now1 - last
      · rw [should_send_alert_some_true cooldown st.last_alerts cid1 ty1 now1 last hla hcd]
        rw [lookupA_insertA_ne st.last_alerts (cid1, ty1) (cid2, ty2) now1 hkey]
        exact hacc2
      · rw [should_send_alert_some_false cooldown st.last_alerts cid1 ty1 now1 last hla hcd]
        exact hacc2
  have hacc2'' : (should_send_alert cooldown st1.last_alerts cid2 ty2 now2).1 = true := by
    rw [should_send_alert_none cooldown st1.last_alerts cid2 ty2 now2 hacc2']
  unfold create_alert
  rw [if_pos hacc2'']
  unfold create_alert_try
  rw [hcam2Eq, hok2]
  cases hmail : env2.email_ok with
  | true =>
    refine ⟨⟨cid2, ty2, conf2, cid2,
      if generate_clip env2.encode_ok st1.frame_buffers cid2 then some cid2 else none,
      true⟩, ?_, ?_⟩
    · simp
    · simp
  | false =>
    refine ⟨⟨cid2, ty2, conf2, cid2,
      if generate_clip env2.encode_ok st1.frame_buffers cid2 then some cid2 else none,
      false⟩, ?_, ?_⟩
    · simp
    · simp

/-- Witness for C8: store down for the fall alert on camera 1, then up for the
crowd alert on camera 2; the first call returns no alert and the second
persists one. -/
theorem create_alert_persist_failure_isolated_witness :
    (⟨true, false, true⟩ : Env).commit_ok = false ∧
    (∃ st1 : AlertServiceState,
      create_alert 60 ⟨true, false, true⟩
          ⟨[(1, ⟨1, 10⟩), (2, ⟨2, 10⟩)], [], []⟩ ⟨[], []⟩ 1 AlertType.fall (9/10) 5
        = (none, ⟨[(1, ⟨1, 10⟩), (2, ⟨2, 10⟩)], [], []⟩, st1) ∧
      create_alert_try ⟨true, false, true⟩ ⟨[(1, ⟨1, 10⟩), (2, ⟨2, 10⟩)], [], []⟩ st1
          1 AlertType.fall (9/10) 60 5 = Except.error () ∧
      ∃ a : Alert,
        (create_alert 60 ⟨true, true, true⟩ ⟨[(1, ⟨1, 10⟩), (2, ⟨2, 10⟩)], [], []⟩ st1
            2 AlertType.crowd (8/10) 6).1 = some a ∧
        a ∈ (create_alert 60 ⟨true, true, true⟩ ⟨[(1, ⟨1, 10⟩), (2, ⟨2, 10⟩)], [], []⟩ st1
            2 AlertType.crowd (8/10) 6).2.1.alerts) :=
  ⟨rfl,
    create_alert_persist_failure_isolated 60 ⟨true, false, true⟩ ⟨true, true, true⟩
      ⟨[(1, ⟨1, 10⟩), (2, ⟨2, 10⟩)], [], []⟩ ⟨[], []⟩ 1 2 AlertType.fall AlertType.crowd
      (9/10) (8/10) 5 6 rfl (by decide) (by decide) (by decide) (by decide) (by decide) rfl⟩

/-- C10: when the cooldown gate accepts but the camera is unknown (so nothing
is persisted and no notification is sent), the deduplicator keeps the newly
recorded timestamp; a second detection of the same key within the cooldown
window is then suppressed even though no alert was ever persisted. -/
theorem cooldown_not_rolled_back (cooldown : Int) (env1 env2 : Env) (db : Db)
    (st : AlertServiceState) (camera_id : Nat) (alert_type : AlertType)
    (conf1 conf2 : ℚ) (now1 now2 : Int)
    (hfresh : lookupA st.last_alerts ((camera_id, alert_type) : DedupKey) = none)
    (hcam : lookupA db.cameras camera_id = none)
    (hwin : now2 - now1 < cooldown) :
    create_alert cooldown env1 db st camera_id alert_type conf1 now1
      = (none, db,
          { st with last_alerts := insertA st.last_alerts (camera_id, alert_type) now1 }) ∧
    lookupA (insertA st.last_alerts (camera_id, alert_type) now1)
        ((camera_id, alert_type) : DedupKey) = some now1 ∧
    create_alert cooldown env2 db
        { st with last_alerts := insertA st.last_alerts (camera_id, alert_type) now1 }
        camera_id alert_type conf2 now2
      = (none, db,
          { st with last_alerts := insertA st.last_alerts (camera_id, alert_type) now1 }) := by
  have hgate1 := should_send_alert_none cooldown st.last_alerts camera_id alert_type now1 hfresh
  have hstored := lookupA_insertA_self st.last_alerts
    ((camera_id, alert_type) : DedupKey) now1
  refine ⟨?_, hstored, ?_⟩
  · unfold create_alert
    rw [hgate1]
    simp only [if_pos]
    unfold create_alert_try
    rw [hcam]
  · have hgate2 := should_send_alert_some_false cooldown
      (insertA st.last_alerts (camera_id, alert_type) now1) camera_id alert_type now2 now1
      hstored (by omega)
    unfold create_alert
    rw [hgate2]
    simp

/-- Witness for C10: cooldown 60, camera 5 absent from the store; a fall
detection at t=0 persists nothing yet records the cooldown timestamp, and the
repeat detection at t=30 is suppressed. -/
theorem cooldown_not_rolled_back_witness :
    lookupA ([] : List (DedupKey × Int)) ((5, AlertType.fall) : DedupKey) = none ∧
    ((30 : Int) - 0 < 60) ∧
    create_alert 60 ⟨true, true, true⟩ ⟨[], [], []⟩ ⟨[], []⟩ 5 AlertType.fall (9/10) 0
      = (none, ⟨[], [], []⟩, ⟨[((5, AlertType.fall), 0)], []⟩) ∧
    create_alert 60 ⟨true, true, true⟩ ⟨[], [], []⟩ ⟨[((5, AlertType.fall), 0)], []⟩
        5 AlertType.fall (9/10) 30
      = (none, ⟨[], [], []⟩, ⟨[((5, AlertType.fall), 0)], []⟩) := by
  have h := cooldown_not_rolled_back 60 ⟨true, true, true⟩ ⟨true, true, true⟩
    ⟨[], [], []⟩ ⟨[], []⟩ 5 AlertType.fall (9/10) (9/10) 0 30 rfl rfl (by decide)
  exact ⟨rfl, by decide, h.1, h.2.2⟩

end Camit
